import Mathlib

/-!
Shallow embedding of the `rust-kqueue` library (src/src/lib.rs): the
registration/identity model, the commit protocol, kernel-event decoding and
the polling/iteration protocol.  Kernel calls (`kqueue(2)`/`kevent(2)`) are
external collaborators; their results are passed in as explicit parameters,
and the change records / wait calls the library issues are returned as data
so that theorems can speak about them.
-/

set_option autoImplicit false

namespace RustKqueue

/-- `RawFd` (C `int` / `i32`) and the other C integer types are modelled as
unbounded `Int`; the casts the source performs are modelled explicitly. -/
abbrev RawFd := Int

/-- Rust's `n as usize` on a signed value: two's-complement reinterpretation
modulo `2 ^ 64`. -/
def usizeCast (n : Int) : Nat := (n % (2 : Int) ^ 64).toNat

/-- Rust's truncating cast of an integer to `i32` (used for `as RawFd`,
`as libc::pid_t`, `as i32`). -/
def i32Cast (n : Int) : Int :=
  let m := n % (2 : Int) ^ 32
  if m < (2 : Int) ^ 31 then m else m - (2 : Int) ^ 32

/-- The `EventFilter` enum (from the `kqueue2-sys` dependency); only the
constructors the library's decoder distinguishes are needed, plus
`EVFILT_AIO` standing for any other unsupported filter value. -/
inductive EventFilter
  | EVFILT_READ
  | EVFILT_WRITE
  | EVFILT_AIO
  | EVFILT_VNODE
  | EVFILT_PROC
  | EVFILT_SIGNAL
  | EVFILT_TIMER
  | EVFILT_SYSCOUNT
  deriving DecidableEq, BEq

/-- `FilterFlag` / `EventFlag` bitsets are modelled as `Nat` bitmasks. -/
abbrev FilterFlag := Nat

/-- `bitflags` `self.contains(flag)`: `self & flag == flag`. -/
def containsFlag (self flag : Nat) : Bool := (self &&& flag) == flag

/-- `FilterFlag::empty()`. -/
def FilterFlag_empty : Nat := 0

/- Bit constants from the external `kqueue2-sys` crate (BSD kqueue ABI). -/
def EV_ADD : Nat := 0x0001
def EV_DELETE : Nat := 0x0002
def EV_CLEAR : Nat := 0x0020
def NOTE_DELETE : Nat := 0x00000001
def NOTE_WRITE : Nat := 0x00000002
def NOTE_EXTEND : Nat := 0x00000004
def NOTE_ATTRIB : Nat := 0x00000008
def NOTE_LINK : Nat := 0x00000010
def NOTE_RENAME : Nat := 0x00000020
def NOTE_REVOKE : Nat := 0x00000040
def NOTE_EXIT : Nat := 0x80000000
def NOTE_FORK : Nat := 0x40000000
def NOTE_EXEC : Nat := 0x20000000
def NOTE_TRACK : Nat := 0x00000001
def NOTE_CHILD : Nat := 0x00000004

/-- `enum Ident` from src/src/lib.rs. -/
inductive Ident
  | Filename : RawFd → String → Ident
  | Fd : RawFd → Ident
  | Pid : Int → Ident
  | Signal : Int → Ident
  | Timer : Int → Ident
  deriving DecidableEq

/-- `Ident::as_usize`: each variant's payload cast `as usize`. -/
def Ident.as_usize : Ident → Nat
  | .Filename fd _ => usizeCast fd
  | .Fd fd => usizeCast fd
  | .Pid pid => usizeCast pid
  | .Signal sig => usizeCast sig
  | .Timer timer => usizeCast timer

/-- The custom `impl PartialEq<Ident> for Ident`: a `Filename` on the left
compares path strings (and is unequal to every other variant); any other
variant on the left compares `as_usize` values of both sides. -/
def Ident.eq (self other : Ident) : Bool :=
  match self with
  | .Filename _ name =>
    match other with
    | .Filename _ othername => name == othername
    | _ => false
  | _ => self.as_usize == other.as_usize

/-- Whether an `Ident` is the `Filename` variant. -/
def Ident.isFilename : Ident → Bool
  | .Filename _ _ => true
  | _ => false

/-- `struct Watched { filter, flags, ident }`. -/
structure Watched where
  filter : EventFilter
  flags : FilterFlag
  ident : Ident
  deriving DecidableEq

/-- The derived `PartialEq` for `Watched`: field-wise equality, with the
custom `Ident::eq` for the `ident` field. -/
def Watched.eq (a b : Watched) : Bool :=
  (a.filter == b.filter) && (a.flags == b.flags) && Ident.eq a.ident b.ident

/-- `Vec::contains` on the registration list (candidate compared with each
element on the left, as `slice::contains` does). -/
def watchedContains (l : List Watched) (w : Watched) : Bool :=
  l.any fun e => Watched.eq e w

/-- `struct KqueueOpts { clear }`. -/
structure KqueueOpts where
  clear : Bool
  deriving DecidableEq

/-- `impl Default for KqueueOpts`: `clear = true`. -/
def KqueueOpts.default : KqueueOpts := ⟨true⟩

/-- `struct Watcher { watched, queue, started, opts }`. -/
structure Watcher where
  watched : List Watched
  queue : RawFd
  started : Bool
  opts : KqueueOpts
  deriving DecidableEq

/-- A `kevent` change/output record (the `udata` field is always null in the
source and is omitted). -/
structure KEvent where
  ident : Nat
  filter : EventFilter
  flags : Nat
  fflags : FilterFlag
  data : Int
  deriving DecidableEq

/-- `io::Result<()>`: `Ok(())` or an `io::Error` (the OS error payload is
ambient state and is not modelled). -/
inductive RustResult
  | Ok
  | IoError
  deriving DecidableEq

/-- `Watcher::add_pid`.  Always returns `Ok`, so only the new state is
modelled. -/
def Watcher.add_pid (w : Watcher) (pid : Int) (filter : EventFilter)
    (flags : FilterFlag) : Watcher :=
  let watch : Watched := ⟨filter, flags, Ident.Pid pid⟩
  if watchedContains w.watched watch then w
  else { w with watched := w.watched ++ [watch] }

/-- `Watcher::add_filename` after the `File::open` succeeded; `newFd` is the
raw descriptor of the freshly opened file (`file.into_raw_fd()`). -/
def Watcher.add_filename (w : Watcher) (newFd : RawFd) (filename : String)
    (filter : EventFilter) (flags : FilterFlag) : Watcher :=
  let watch : Watched := ⟨filter, flags, Ident.Filename newFd filename⟩
  if watchedContains w.watched watch then w
  else { w with watched := w.watched ++ [watch] }

/-- `Watcher::add_fd`. -/
def Watcher.add_fd (w : Watcher) (fd : RawFd) (filter : EventFilter)
    (flags : FilterFlag) : Watcher :=
  let watch : Watched := ⟨filter, flags, Ident.Fd fd⟩
  if watchedContains w.watched watch then w
  else { w with watched := w.watched ++ [watch] }

/-- `Watcher::add_file`: `add_fd(file.as_raw_fd(), ..)`. -/
def Watcher.add_file (w : Watcher) (fileFd : RawFd) (filter : EventFilter)
    (flags : FilterFlag) : Watcher :=
  w.add_fd fileFd filter flags

/-- `Watcher::delete_kevents`: builds the single `EV_DELETE` change record
and submits it; `ret` is the kernel's return value for that `kevent(2)`
call.  Returns the submitted change list and the mapped result. -/
def Watcher.delete_kevents (_w : Watcher) (ident : Ident)
    (filter : EventFilter) (ret : Int) : List KEvent × RustResult :=
  let kev : List KEvent := [⟨ident.as_usize, filter, EV_DELETE, FilterFlag_empty, 0⟩]
  (kev, if ret = -1 then .IoError else .Ok)

/-- `Watcher::remove_pid`: drop all `Pid` entries with this pid, then issue
the kernel deregistration. -/
def Watcher.remove_pid (w : Watcher) (pid : Int) (filter : EventFilter)
    (ret : Int) : Watcher × List KEvent × RustResult :=
  let new_watched := w.watched.filter fun x =>
    match x.ident with
    | .Pid iterpid => iterpid != pid
    | _ => true
  let w' := { w with watched := new_watched }
  let r := w'.delete_kevents (Ident.Pid pid) filter ret
  (w', r)

/-- The drain/filter loop of `Watcher::remove_filename`: walks the list in
order, drops every `Filename` entry whose path equals `filename`, and
records the descriptor of the last dropped entry in the `fd` accumulator
(initially `0`). -/
def removeFilenameScan (l : List Watched) (filename : String) (fd : RawFd) :
    RawFd × List Watched :=
  match l with
  | [] => (fd, [])
  | x :: rest =>
    match x.ident with
    | .Filename iterfd iterfile =>
      if iterfile == filename then
        removeFilenameScan rest filename iterfd
      else
        let r := removeFilenameScan rest filename fd
        (r.1, x :: r.2)
    | _ =>
      let r := removeFilenameScan rest filename fd
      (r.1, x :: r.2)

/-- `Watcher::remove_filename`. -/
def Watcher.remove_filename (w : Watcher) (filename : String)
    (filter : EventFilter) (ret : Int) : Watcher × List KEvent × RustResult :=
  let scan := removeFilenameScan w.watched filename 0
  let w' := { w with watched := scan.2 }
  let r := w'.delete_kevents (Ident.Fd scan.1) filter ret
  (w', r)

/-- `Watcher::remove_fd`. -/
def Watcher.remove_fd (w : Watcher) (fd : RawFd) (filter : EventFilter)
    (ret : Int) : Watcher × List KEvent × RustResult :=
  let new_watched := w.watched.filter fun x =>
    match x.ident with
    | .Fd iterfd => iterfd != fd
    | _ => true
  let w' := { w with watched := new_watched }
  let r := w'.delete_kevents (Ident.Fd fd) filter ret
  (w', r)

/-- `Watcher::remove_file`: `remove_fd(file.as_raw_fd(), ..)`. -/
def Watcher.remove_file (w : Watcher) (fileFd : RawFd) (filter : EventFilter)
    (ret : Int) : Watcher × List KEvent × RustResult :=
  w.remove_fd fileFd filter ret

/-- `Watcher::watch`: builds one change record per registration (`EV_ADD`,
plus `EV_CLEAR` unless clears are disabled), submits them in one batched
kernel call whose return value is `ret`, sets `started = true`
(unconditionally, before inspecting `ret`), and maps `ret` to the result. -/
def Watcher.watch (w : Watcher) (ret : Int) : Watcher × List KEvent × RustResult :=
  let kevs : List KEvent := w.watched.map fun watched =>
    let raw_ident : Nat :=
      match watched.ident with
      | .Fd fd => usizeCast fd
      | .Filename fd _ => usizeCast fd
      | .Pid pid => usizeCast pid
      | .Signal sig => usizeCast sig
      | .Timer ident => usizeCast ident
    { ident := raw_ident
      filter := watched.filter
      flags := if w.opts.clear then EV_ADD ||| EV_CLEAR else EV_ADD
      fflags := watched.flags
      data := 0 }
  let w' := { w with started := true }
  (w', kevs, if ret = -1 then .IoError else .Ok)

/-- `std::time::Duration` (already normalised: `nanos < 10^9`). -/
structure Duration where
  secs : Nat
  nanos : Nat
  deriving DecidableEq

/-- `libc::timespec`. -/
structure Timespec where
  tv_sec : Int
  tv_nsec : Int
  deriving DecidableEq

/-- The timespec `get_event` passes to the kernel: a value built from the
duration, or null (`None`, blocking indefinitely). -/
def timespecOf : Option Duration → Option Timespec
  | some ts => some ⟨ts.secs, ts.nanos⟩
  | none => none

/-- One `kevent(2)` wait call as issued by `get_event`: the timespec passed
(`none` = null pointer = block indefinitely) and the output capacity
(always 1). -/
structure WaitCall where
  tspec : Option Timespec
  capacity : Nat
  deriving DecidableEq

/-- `enum Vnode`. -/
inductive Vnode
  | Delete
  | Write
  | Extend
  | Truncate
  | Attrib
  | Link
  | Rename
  | Revoke
  deriving DecidableEq

/-- `enum Proc`. -/
inductive Proc
  | Exit : Nat → Proc
  | Fork
  | Exec
  | Track : Int → Proc
  | Trackerr
  | Child : Int → Proc
  deriving DecidableEq

/-- `enum EventData`; the `Error` variant carries the OS error code. -/
inductive EventData
  | Vnode : Vnode → EventData
  | Proc : Proc → EventData
  | ReadReady : Nat → EventData
  | WriteReady : Nat → EventData
  | Signal : Nat → EventData
  | Timer : Nat → EventData
  | Error : Int → EventData
  deriving DecidableEq

/-- `struct Event`. -/
structure Event where
  ident : Ident
  data : EventData
  deriving DecidableEq

/-- The loop of `find_file_ident` over the registration list: first entry
whose `Fd`/`Filename` descriptor equals `fd`. -/
def findFileIdentList (l : List Watched) (fd : RawFd) : Option Ident :=
  match l with
  | [] => none
  | watched :: rest =>
    match watched.ident with
    | .Fd ident_fd =>
      if fd = ident_fd then some (Ident.Fd fd) else findFileIdentList rest fd
    | .Filename ident_fd ident_str =>
      if fd = ident_fd then some (Ident.Filename ident_fd ident_str)
      else findFileIdentList rest fd
    | _ => findFileIdentList rest fd

/-- `find_file_ident(watcher, fd)`. -/
def find_file_ident (watcher : Watcher) (fd : RawFd) : Option Ident :=
  findFileIdentList watcher.watched fd

/-- The `data` half of `Event::new`: the filter-specific payload decode.
`none` models the source's fatal `panic` on an unsupported filter or an
empty sub-flag set. -/
def eventDataOf (ev : KEvent) : Option EventData :=
  match ev.filter with
  | .EVFILT_READ => some (.ReadReady (usizeCast ev.data))
  | .EVFILT_WRITE => some (.WriteReady (usizeCast ev.data))
  | .EVFILT_SIGNAL => some (.Signal (usizeCast ev.data))
  | .EVFILT_TIMER => some (.Timer (usizeCast ev.data))
  | .EVFILT_PROC =>
    if containsFlag ev.fflags NOTE_EXIT then some (.Proc (.Exit (usizeCast ev.data)))
    else if containsFlag ev.fflags NOTE_FORK then some (.Proc .Fork)
    else if containsFlag ev.fflags NOTE_EXEC then some (.Proc .Exec)
    else if containsFlag ev.fflags NOTE_TRACK then some (.Proc (.Track (i32Cast ev.data)))
    else if containsFlag ev.fflags NOTE_CHILD then some (.Proc (.Child (i32Cast ev.data)))
    else none
  | .EVFILT_VNODE =>
    if containsFlag ev.fflags NOTE_DELETE then some (.Vnode .Delete)
    else if containsFlag ev.fflags NOTE_WRITE then some (.Vnode .Write)
    else if containsFlag ev.fflags NOTE_EXTEND then some (.Vnode .Extend)
    else if containsFlag ev.fflags NOTE_ATTRIB then some (.Vnode .Attrib)
    else if containsFlag ev.fflags NOTE_LINK then some (.Vnode .Link)
    else if containsFlag ev.fflags NOTE_RENAME then some (.Vnode .Rename)
    else if containsFlag ev.fflags NOTE_REVOKE then some (.Vnode .Revoke)
    else none
  | _ => none

/-- The `ident` half of `Event::new`: reverse descriptor lookup for the
read/write/vnode filters, direct reconstruction for signal/timer/proc;
`none` models the fatal `unwrap`/`panic`. -/
def eventIdentOf (ev : KEvent) (watcher : Watcher) : Option Ident :=
  match ev.filter with
  | .EVFILT_READ => find_file_ident watcher (i32Cast (ev.ident : Int))
  | .EVFILT_WRITE => find_file_ident watcher (i32Cast (ev.ident : Int))
  | .EVFILT_VNODE => find_file_ident watcher (i32Cast (ev.ident : Int))
  | .EVFILT_SIGNAL => some (Ident.Signal (i32Cast (ev.ident : Int)))
  | .EVFILT_TIMER => some (Ident.Timer (i32Cast (ev.ident : Int)))
  | .EVFILT_PROC => some (Ident.Pid (i32Cast (ev.ident : Int)))
  | _ => none

/-- `Event::new`: decode the payload, then resolve the identity (in the
source's order: the payload match runs first, so its panic fires first). -/
def Event.new (ev : KEvent) (watcher : Watcher) : Option Event :=
  match eventDataOf ev with
  | none => none
  | some data =>
    match eventIdentOf ev watcher with
    | none => none
    | some ident => some ⟨ident, data⟩

/-- The identity match of `Event::from_error` (the source repeats the same
per-filter match as in `Event::new`). -/
def fromErrorIdent (ev : KEvent) (watcher : Watcher) : Option Ident :=
  match ev.filter with
  | .EVFILT_READ => find_file_ident watcher (i32Cast (ev.ident : Int))
  | .EVFILT_WRITE => find_file_ident watcher (i32Cast (ev.ident : Int))
  | .EVFILT_VNODE => find_file_ident watcher (i32Cast (ev.ident : Int))
  | .EVFILT_SIGNAL => some (Ident.Signal (i32Cast (ev.ident : Int)))
  | .EVFILT_TIMER => some (Ident.Timer (i32Cast (ev.ident : Int)))
  | .EVFILT_PROC => some (Ident.Pid (i32Cast (ev.ident : Int)))
  | _ => none

/-- `Event::from_error`: resolve the identity the same way as a successful
decode and carry the last OS error (`osErr`) as the payload. -/
def Event.from_error (ev : KEvent) (watcher : Watcher) (osErr : Int) : Option Event :=
  match fromErrorIdent ev watcher with
  | none => none
  | some ident => some ⟨ident, .Error osErr⟩

/-- The outcome of one `get_event` call: no event (kernel returned 0), a
fatal decode panic, or a decoded event. -/
inductive GetEventResult
  | noEvent
  | panicked
  | event : Event → GetEventResult
  deriving DecidableEq

/-- Lift the panic-as-`none` decoders into `GetEventResult`. -/
def liftPanic : Option Event → GetEventResult
  | none => .panicked
  | some e => .event e

/-- `get_event(watcher, timeout)`.  `ret` is the kernel's return value for
the single wait call issued, `kev` the output record it wrote, and `osErr`
the last OS error.  Returns the wait call made and the mapped outcome:
`-1` decodes via `Event::from_error`, `0` is no event, anything else
decodes via `Event::new`. -/
def get_event (watcher : Watcher) (timeout : Option Duration) (ret : Int)
    (kev : KEvent) (osErr : Int) : WaitCall × GetEventResult :=
  let call : WaitCall := ⟨timespecOf timeout, 1⟩
  let r :=
    if ret = -1 then liftPanic (Event.from_error kev watcher osErr)
    else if ret = 0 then .noEvent
    else liftPanic (Event.new kev watcher)
  (call, r)

/-- `Watcher::poll`: `Some(t)` forwards the duration, `None` means return
immediately (a zero duration is passed to `get_event`). -/
def Watcher.poll (w : Watcher) (timeout : Option Duration) (ret : Int)
    (kev : KEvent) (osErr : Int) : WaitCall × GetEventResult :=
  match timeout with
  | some t => get_event w (some t) ret kev osErr
  | none => get_event w (some ⟨0, 0⟩) ret kev osErr

/-- `Iterator::next` for `EventIter`: no item without any kernel call while
`started` is false, otherwise one `get_event` with no timeout (null
timespec).  Returns the list of wait calls made and the outcome
(`noEvent` = the iterator yields `None`). -/
def EventIter_next (w : Watcher) (ret : Int) (kev : KEvent) (osErr : Int) :
    List WaitCall × GetEventResult :=
  if !w.started then ([], .noEvent)
  else
    let r := get_event w none ret kev osErr
    ([r.1], r.2)

/-- The descriptor a `Drop` loop iteration closes for a registration:
`Fd`/`Filename` close their descriptor, the other variants `continue`. -/
def identCloseFd : Ident → Option RawFd
  | .Fd fd => some fd
  | .Filename fd _ => some fd
  | _ => none

/-- The per-registration part of `impl Drop for Watcher`: the descriptors
closed, in list order. -/
def dropClosesList : List Watched → List RawFd
  | [] => []
  | watched :: rest =>
    match watched.ident with
    | .Fd fd => fd :: dropClosesList rest
    | .Filename fd _ => fd :: dropClosesList rest
    | _ => dropClosesList rest

/-- `impl Drop for Watcher`: the sequence of `libc::close` calls issued
(the queue handle first, then each registration's descriptor); the return
value of every close is discarded. -/
def dropCloses (w : Watcher) : List RawFd :=
  w.queue :: dropClosesList w.watched

/-- The closed-descriptor set as the claim describes it: the queue handle
plus only the descriptors of `NamedFile` (`Filename`) registrations.  This
definition follows the claim's words, for comparison with `dropCloses`. -/
def claimedDropCloses (w : Watcher) : List RawFd :=
  w.queue :: w.watched.filterMap fun e =>
    match e.ident with
    | .Filename fd _ => some fd
    | _ => none

/-- Modelled from the spec: the kernel wait primitive (§6) applied to a
queue to which no change records have ever been submitted (`watch` not yet
called, so `started = false`).  Nothing is registered, so no event can be
pending and a zero-timeout wait reports `0` records.  The kernel itself is
an external collaborator, not code of this repository. -/
def kernelWaitNoRegistrations : Int := 0

/-- No registration in the list is a `Filename` entry with path `p`. -/
def noFilenameFor (l : List Watched) (p : String) : Bool :=
  l.all fun e =>
    match e.ident with
    | .Filename _ iterfile => iterfile != p
    | _ => true

theorem EventFilter.beq_self (f : EventFilter) : (f == f) = true := by
  cases f <;> rfl

theorem removeFilenameScan_nomatch (l : List Watched) (p : String) (fd : RawFd)
    (h : noFilenameFor l p = true) : removeFilenameScan l p fd = (fd, l) := by
  induction l generalizing fd with
  | nil => rfl
  | cons x rest ih =>
    obtain ⟨xf, xfl, xid⟩ := x
    simp only [noFilenameFor, List.all_cons, Bool.and_eq_true] at h
    cases xid <;> simp_all [removeFilenameScan, noFilenameFor, ih]

theorem dropClosesList_count (l : List Watched) (x : RawFd) :
    (dropClosesList l).count x =
      l.countP fun e => identCloseFd e.ident == some x := by
  induction l with
  | nil => rfl
  | cons e rest ih =>
    obtain ⟨f, fl, id⟩ := e
    cases id <;>
      simp [dropClosesList, identCloseFd, List.count_cons, List.countP_cons, ih]

/-- Claim C1: the claim says a failed commit leaves `started = false`; in
the code `watch` sets `started = true` before inspecting the kernel return
value, so a commit whose batched kernel call returned `-1` returns
`IoError` yet leaves `started = true` — for every watcher state. -/
theorem c1_watch_failure_sets_started (w : Watcher) :
    (w.watch (-1)).1.started = true ∧
      (w.watch (-1)).2.2 = RustResult.IoError :=
  ⟨rfl, rfl⟩

/-- Claim C2: if a registration with identity `Filename _ p` and the same
filter and flags is already present, a second `add_filename` for path `p`
(with whatever fresh descriptor the open produced) leaves the length of the
registration list unchanged: `Filename` equality compares the path only. -/
theorem c2_add_filename_dedup (w : Watcher) (p : String) (fd0 fd2 : RawFd)
    (filter : EventFilter) (flags : FilterFlag)
    (h : (⟨filter, flags, Ident.Filename fd0 p⟩ : Watched) ∈ w.watched) :
    (w.add_filename fd2 p filter flags).watched.length = w.watched.length := by
  have hc : watchedContains w.watched ⟨filter, flags, Ident.Filename fd2 p⟩ = true := by
    refine List.any_eq_true.mpr ⟨_, h, ?_⟩
    simp [Watched.eq, Ident.eq, EventFilter.beq_self]
  simp [Watcher.add_filename, hc]

theorem c2_witness :
    ((⟨EventFilter.EVFILT_VNODE, NOTE_WRITE, Ident.Filename 4 "/tmp/a"⟩ : Watched) ∈
      (Watcher.mk [⟨EventFilter.EVFILT_VNODE, NOTE_WRITE, Ident.Filename 4 "/tmp/a"⟩]
        3 false ⟨true⟩).watched) ∧
    ((Watcher.mk [⟨EventFilter.EVFILT_VNODE, NOTE_WRITE, Ident.Filename 4 "/tmp/a"⟩]
        3 false ⟨true⟩).add_filename 5 "/tmp/a" EventFilter.EVFILT_VNODE
        NOTE_WRITE).watched.length =
      (Watcher.mk [⟨EventFilter.EVFILT_VNODE, NOTE_WRITE, Ident.Filename 4 "/tmp/a"⟩]
        3 false ⟨true⟩).watched.length :=
  ⟨List.mem_cons_self _ _,
    c2_add_filename_dedup _ "/tmp/a" 4 5 _ _ (List.mem_cons_self _ _)⟩

/-- Claim C3: the kernel wait return value is mapped by `get_event` as
`-1` → event carrying the transport error (identity resolved by
`Event::from_error`, whose per-filter rule coincides with the one used by a
successful decode), `0` → no event, positive → normal decode via
`Event::new`. -/
theorem c3_wait_return_mapping (w : Watcher) (t : Option Duration)
    (kev : KEvent) (osErr : Int) :
    (get_event w t (-1) kev osErr).2 = liftPanic (Event.from_error kev w osErr) ∧
    Event.from_error kev w osErr =
      (fromErrorIdent kev w).map (fun i => ⟨i, EventData.Error osErr⟩) ∧
    fromErrorIdent kev w = eventIdentOf kev w ∧
    (get_event w t 0 kev osErr).2 = .noEvent ∧
    (∀ n : Nat, (get_event w t ((n : Int) + 1) kev osErr).2 =
      liftPanic (Event.new kev w)) := by
  refine ⟨rfl, ?_, rfl, rfl, ?_⟩
  · cases h : fromErrorIdent kev w <;> simp [Event.from_error, h]
  · intro n
    have h1 : ¬((n : Int) + 1 = -1) := by omega
    have h2 : ¬((n : Int) + 1 = 0) := by omega
    simp [get_event, h1, h2]

/-- Claim C4: for each removal operation the registration-list mutation is
independent of the kernel deregistration outcome (the list after a failed
removal equals the list after a successful one), and a kernel return of
`-1` maps to `IoError` while any other return maps to `Ok`. -/
theorem c4_removal_not_rolled_back (w : Watcher) (pid : Int) (fd : RawFd)
    (fileFd : RawFd) (p : String) (filter : EventFilter) (ret : Int) :
    ((w.remove_pid pid filter ret).1 = (w.remove_pid pid filter 0).1 ∧
      (w.remove_pid pid filter (-1)).2.2 = RustResult.IoError ∧
      (w.remove_pid pid filter 0).2.2 = RustResult.Ok) ∧
    ((w.remove_fd fd filter ret).1 = (w.remove_fd fd filter 0).1 ∧
      (w.remove_fd fd filter (-1)).2.2 = RustResult.IoError ∧
      (w.remove_fd fd filter 0).2.2 = RustResult.Ok) ∧
    ((w.remove_filename p filter ret).1 = (w.remove_filename p filter 0).1 ∧
      (w.remove_filename p filter (-1)).2.2 = RustResult.IoError ∧
      (w.remove_filename p filter 0).2.2 = RustResult.Ok) ∧
    ((w.remove_file fileFd filter ret).1 = (w.remove_file fileFd filter 0).1 ∧
      (w.remove_file fileFd filter (-1)).2.2 = RustResult.IoError ∧
      (w.remove_file fileFd filter 0).2.2 = RustResult.Ok) :=
  ⟨⟨rfl, rfl, rfl⟩, ⟨rfl, rfl, rfl⟩, ⟨rfl, rfl, rfl⟩, ⟨rfl, rfl, rfl⟩⟩

/-- Claim C5: removing a path with no matching `Filename` registration
leaves the watcher unchanged, issues exactly one `EV_DELETE` change record
with numeric identity `0`, and (when the kernel call does not fail) is not
reported as an error. -/
theorem c5_remove_absent_filename (w : Watcher) (p : String)
    (filter : EventFilter) (ret : Int)
    (h : noFilenameFor w.watched p = true) :
    (w.remove_filename p filter ret).1 = w ∧
    (w.remove_filename p filter ret).2.1 =
      [⟨0, filter, EV_DELETE, FilterFlag_empty, 0⟩] ∧
    (w.remove_filename p filter 0).2.2 = RustResult.Ok := by
  have hs := removeFilenameScan_nomatch w.watched p 0 h
  refine ⟨?_, ?_, rfl⟩
  · simp [Watcher.remove_filename, hs]
  · simp [Watcher.remove_filename, Watcher.delete_kevents, hs, Ident.as_usize,
      usizeCast]

theorem c5_witness :
    noFilenameFor [⟨EventFilter.EVFILT_PROC, 0, Ident.Pid 9⟩] "/tmp/none" = true ∧
    ((Watcher.mk [⟨EventFilter.EVFILT_PROC, 0, Ident.Pid 9⟩] 3 true
        ⟨true⟩).remove_filename "/tmp/none" EventFilter.EVFILT_VNODE 0).1 =
      Watcher.mk [⟨EventFilter.EVFILT_PROC, 0, Ident.Pid 9⟩] 3 true ⟨true⟩ ∧
    ((Watcher.mk [⟨EventFilter.EVFILT_PROC, 0, Ident.Pid 9⟩] 3 true
        ⟨true⟩).remove_filename "/tmp/none" EventFilter.EVFILT_VNODE 0).2.1 =
      [⟨0, EventFilter.EVFILT_VNODE, EV_DELETE, FilterFlag_empty, 0⟩] :=
  ⟨rfl,
    (c5_remove_absent_filename
      (Watcher.mk [⟨EventFilter.EVFILT_PROC, 0, Ident.Pid 9⟩] 3 true ⟨true⟩)
      "/tmp/none" EventFilter.EVFILT_VNODE 0 rfl).1,
    (c5_remove_absent_filename
      (Watcher.mk [⟨EventFilter.EVFILT_PROC, 0, Ident.Pid 9⟩] 3 true ⟨true⟩)
      "/tmp/none" EventFilter.EVFILT_VNODE 0 rfl).2.1⟩

/-- Claim C6: for the process-lifecycle filter the payload is determined by
the first sub-flag set in the order exit, fork, exec, track, child (with
`Exit` carrying `data` as a status and `Track`/`Child` carrying `data` as a
pid), and a record with none of them decodes fatally; for the
filesystem-node filter the order is delete, write, extend, attrib, link,
rename, revoke, with the same fatal-on-none policy. -/
theorem c6_decode_priority (ev : KEvent) :
    (ev.filter = .EVFILT_PROC →
      ((containsFlag ev.fflags NOTE_EXIT = true →
          eventDataOf ev = some (.Proc (.Exit (usizeCast ev.data)))) ∧
        (containsFlag ev.fflags NOTE_EXIT = false →
          containsFlag ev.fflags NOTE_FORK = true →
          eventDataOf ev = some (.Proc .Fork)) ∧
        (containsFlag ev.fflags NOTE_EXIT = false →
          containsFlag ev.fflags NOTE_FORK = false →
          containsFlag ev.fflags NOTE_EXEC = true →
          eventDataOf ev = some (.Proc .Exec)) ∧
        (containsFlag ev.fflags NOTE_EXIT = false →
          containsFlag ev.fflags NOTE_FORK = false →
          containsFlag ev.fflags NOTE_EXEC = false →
          containsFlag ev.fflags NOTE_TRACK = true →
          eventDataOf ev = some (.Proc (.Track (i32Cast ev.data)))) ∧
        (containsFlag ev.fflags NOTE_EXIT = false →
          containsFlag ev.fflags NOTE_FORK = false →
          containsFlag ev.fflags NOTE_EXEC = false →
          containsFlag ev.fflags NOTE_TRACK = false →
          containsFlag ev.fflags NOTE_CHILD = true →
          eventDataOf ev = some (.Proc (.Child (i32Cast ev.data)))) ∧
        (containsFlag ev.fflags NOTE_EXIT = false →
          containsFlag ev.fflags NOTE_FORK = false →
          containsFlag ev.fflags NOTE_EXEC = false →
          containsFlag ev.fflags NOTE_TRACK = false →
          containsFlag ev.fflags NOTE_CHILD = false →
          eventDataOf ev = none))) ∧
    (ev.filter = .EVFILT_VNODE →
      ((containsFlag ev.fflags NOTE_DELETE = true →
          eventDataOf ev = some (.Vnode .Delete)) ∧
        (containsFlag ev.fflags NOTE_DELETE = false →
          containsFlag ev.fflags NOTE_WRITE = true →
          eventDataOf ev = some (.Vnode .Write)) ∧
        (containsFlag ev.fflags NOTE_DELETE = false →
          containsFlag ev.fflags NOTE_WRITE = false →
          containsFlag ev.fflags NOTE_EXTEND = true →
          eventDataOf ev = some (.Vnode .Extend)) ∧
        (containsFlag ev.fflags NOTE_DELETE = false →
          containsFlag ev.fflags NOTE_WRITE = false →
          containsFlag ev.fflags NOTE_EXTEND = false →
          containsFlag ev.fflags NOTE_ATTRIB = true →
          eventDataOf ev = some (.Vnode .Attrib)) ∧
        (containsFlag ev.fflags NOTE_DELETE = false →
          containsFlag ev.fflags NOTE_WRITE = false →
          containsFlag ev.fflags NOTE_EXTEND = false →
          containsFlag ev.fflags NOTE_ATTRIB = false →
          containsFlag ev.fflags NOTE_LINK = true →
          eventDataOf ev = some (.Vnode .Link)) ∧
        (containsFlag ev.fflags NOTE_DELETE = false →
          containsFlag ev.fflags NOTE_WRITE = false →
          containsFlag ev.fflags NOTE_EXTEND = false →
          containsFlag ev.fflags NOTE_ATTRIB = false →
          containsFlag ev.fflags NOTE_LINK = false →
          containsFlag ev.fflags NOTE_RENAME = true →
          eventDataOf ev = some (.Vnode .Rename)) ∧
        (containsFlag ev.fflags NOTE_DELETE = false →
          containsFlag ev.fflags NOTE_WRITE = false →
          containsFlag ev.fflags NOTE_EXTEND = false →
          containsFlag ev.fflags NOTE_ATTRIB = false →
          containsFlag ev.fflags NOTE_LINK = false →
          containsFlag ev.fflags NOTE_RENAME = false →
          containsFlag ev.fflags NOTE_REVOKE = true →
          eventDataOf ev = some (.Vnode .Revoke)) ∧
        (containsFlag ev.fflags NOTE_DELETE = false →
          containsFlag ev.fflags NOTE_WRITE = false →
          containsFlag ev.fflags NOTE_EXTEND = false →
          containsFlag ev.fflags NOTE_ATTRIB = false →
          containsFlag ev.fflags NOTE_LINK = false →
          containsFlag ev.fflags NOTE_RENAME = false →
          containsFlag ev.fflags NOTE_REVOKE = false →
          eventDataOf ev = none))) := by
  obtain ⟨i, f, fl, ff, d⟩ := ev
  constructor
  · intro hf
    subst hf
    refine ⟨?_, ?_, ?_, ?_, ?_, ?_⟩ <;> (intros; simp_all [eventDataOf])
  · intro hf
    subst hf
    refine ⟨?_, ?_, ?_, ?_, ?_, ?_, ?_, ?_⟩ <;> (intros; simp_all [eventDataOf])

theorem c6_witness :
    eventDataOf ⟨0, .EVFILT_PROC, 0, NOTE_EXIT ||| NOTE_FORK, 7⟩ =
      some (.Proc (.Exit (usizeCast 7))) ∧
    eventDataOf ⟨0, .EVFILT_VNODE, 0, NOTE_WRITE, 0⟩ = some (.Vnode .Write) ∧
    eventDataOf ⟨0, .EVFILT_VNODE, 0, 0, 0⟩ = none :=
  ⟨((c6_decode_priority ⟨0, .EVFILT_PROC, 0, NOTE_EXIT ||| NOTE_FORK, 7⟩).1
      rfl).1 (by decide),
    ((c6_decode_priority ⟨0, .EVFILT_VNODE, 0, NOTE_WRITE, 0⟩).2
      rfl).2.1 (by decide) (by decide),
    ((c6_decode_priority ⟨0, .EVFILT_VNODE, 0, 0, 0⟩).2
      rfl).2.2.2.2.2.2.2 rfl rfl rfl rfl rfl rfl rfl⟩

/-- Claim C7: the iterator's `next` yields no item and makes no kernel wait
call while `started` is false; with `started` true it makes exactly one
wait call with a null timespec (block indefinitely) and returns that call's
decoded outcome. -/
theorem c7_iterator_gating (watched : List Watched) (queue : RawFd)
    (opts : KqueueOpts) (ret : Int) (kev : KEvent) (osErr : Int) :
    EventIter_next ⟨watched, queue, false, opts⟩ ret kev osErr =
      ([], .noEvent) ∧
    (EventIter_next ⟨watched, queue, true, opts⟩ ret kev osErr).1 =
      [⟨none, 1⟩] ∧
    (EventIter_next ⟨watched, queue, true, opts⟩ ret kev osErr).2 =
      (get_event ⟨watched, queue, true, opts⟩ none ret kev osErr).2 :=
  ⟨rfl, rfl, rfl⟩

/-- Claim C8: polling with `ReturnImmediately` (timeout `None`) on a
watcher that has not committed issues a single zero-duration (non-blocking)
wait call and, with the kernel's response for a queue holding no
registrations, yields no event — not an error and not a panic. -/
theorem c8_poll_before_commit (watched : List Watched) (queue : RawFd)
    (opts : KqueueOpts) (kev : KEvent) (osErr : Int) :
    Watcher.poll ⟨watched, queue, false, opts⟩ none kernelWaitNoRegistrations
        kev osErr =
      (⟨some ⟨0, 0⟩, 1⟩, .noEvent) :=
  rfl

/-- Claim C9 counterexample: a watcher holding one caller-supplied
descriptor registration (`Fd 5`).  The claim says teardown closes exactly
the queue handle plus `NamedFile` descriptors (here `[3]`), but the code
closes the caller's descriptor as well (`[3, 5]`). -/
theorem c9_counterexample :
    dropCloses ⟨[⟨.EVFILT_READ, 0, Ident.Fd 5⟩], 3, false, ⟨true⟩⟩ = [3, 5] ∧
    claimedDropCloses ⟨[⟨.EVFILT_READ, 0, Ident.Fd 5⟩], 3, false, ⟨true⟩⟩ = [3] :=
  ⟨rfl, rfl⟩

/-- Claim C9 (amended): on teardown the watcher closes the queue handle
once and, for each `Fd` or `Filename` registration entry, that entry's
descriptor once (so caller-supplied `Fd` descriptors are closed too);
`Pid`/`Signal`/`Timer` entries trigger no close, and close results are
discarded. -/
theorem c9_drop_close_count (w : Watcher) (x : RawFd) :
    (dropCloses w).count x =
      (if w.queue = x then 1 else 0) +
        w.watched.countP (fun e => identCloseFd e.ident == some x) := by
  by_cases h : w.queue = x <;>
    simp [dropCloses, List.count_cons, dropClosesList_count, h]
  all_goals omega

/-- Claim C10: `Ident` equality is not symmetric: a non-`Filename` left
operand falls through to numeric comparison (so `Fd n == Filename n p` and
cross-variant numeric coincidences like `Pid n == Fd n` hold), while a
`Filename` left operand is equal only to another `Filename` with the same
path (so `Filename n p == Fd n` is false). -/
theorem c10_ident_eq_asymmetric (n : Int) (p : String) :
    Ident.eq (Ident.Fd n) (Ident.Filename n p) = true ∧
    Ident.eq (Ident.Filename n p) (Ident.Fd n) = false ∧
    Ident.eq (Ident.Pid n) (Ident.Fd n) = true ∧
    (∀ a b : Ident, a.isFilename = false → a.as_usize = b.as_usize →
      Ident.eq a b = true) := by
  refine ⟨by simp [Ident.eq, Ident.as_usize], rfl,
    by simp [Ident.eq, Ident.as_usize], ?_⟩
  intro a b hf he
  cases a <;> simp_all [Ident.eq, Ident.isFilename]

theorem c10_witness :
    Ident.eq (Ident.Fd 5) (Ident.Filename 5 "a") = true ∧
    Ident.eq (Ident.Filename 5 "a") (Ident.Fd 5) = false ∧
    Ident.eq (Ident.Signal 9) (Ident.Timer 9) = true :=
  ⟨(c10_ident_eq_asymmetric 5 "a").1, (c10_ident_eq_asymmetric 5 "a").2.1,
    (c10_ident_eq_asymmetric 9 "b").2.2.2 (Ident.Signal 9) (Ident.Timer 9)
      rfl rfl⟩

end RustKqueue
